import Mathlib

/-!
Verification of the scale-normalization logic of
`src/scripts/media_to_scale_sheet/media_to_scale_sheet.py`.

Shallow embedding conventions:
* Python ints are `Nat` (all dimensions in this program are nonnegative).
* Python float arithmetic on the small rationals appearing here is modelled
  by exact arithmetic in `ℚ`; `int(x)` on a nonnegative value truncates,
  which on these quotients of naturals is `Nat` floor division.
* A Python `ZeroDivisionError` is modelled by `none`; a normal return of a
  value `v` is `some v`.
* The batch handed to `get_global_scaling_factor` is modelled as the list of
  pixel sizes `(w, h)` of the images that open successfully (the function
  skips, with a warning, any file whose `Image.open`/`process_image` raises).
-/

/-- Figma's maximum dimension, the constant `FIGMA_MAX_DIMENSION = 4096`. -/
def FIGMA_MAX_DIMENSION : Nat := 4096

/-- Embedding of `calculate_scaled_dimensions(w, h, target_w, target_h)`
(lines 38-53).  The Python body computes `aspect_ratio = w / h` (raising
`ZeroDivisionError` when `h = 0`), tests `target_w / target_h > aspect_ratio`
(raising when `target_h = 0`), and in the height-limited branch returns
`(int(target_h * aspect_ratio), target_h)`, otherwise
`(target_w, int(target_w / aspect_ratio))` — the latter raising when
`aspect_ratio` is `0`, i.e. when `w = 0`.  The truncated products are the
`Nat` floor divisions `target_h * w / h` and `target_w * h / w`. -/
def calculate_scaled_dimensions (w h target_w target_h : Nat) :
    Option (Nat × Nat) :=
  if h = 0 then none
  else if target_h = 0 then none
  else if (target_w : ℚ) / (target_h : ℚ) > (w : ℚ) / (h : ℚ) then
    some (target_h * w / h, target_h)
  else if w = 0 then none
  else some (target_w, target_w * h / w)

/-- Per-image target dimension of `get_global_scaling_factor` (lines 67-72):
`int(px / 300 * 96)`, i.e. inches at 300 DPI rendered at 96 DPI. -/
def figmaTarget96 (px : Nat) : Nat := px * 96 / 300

/-- The running maxima `(max_target_w, max_target_h)` accumulated by the loop
of `get_global_scaling_factor` (lines 57-75), starting from `(0, 0)`. -/
def globalMaxima (items : List (Nat × Nat)) : Nat × Nat :=
  items.foldl
    (fun acc wh => (max acc.1 (figmaTarget96 wh.1), max acc.2 (figmaTarget96 wh.2)))
    (0, 0)

/-- Embedding of `get_global_scaling_factor` (lines 55-83): factor `1.0` when
both maxima fit in `FIGMA_MAX_DIMENSION`, otherwise
`min(FIGMA_MAX_DIMENSION / max_target_w, FIGMA_MAX_DIMENSION / max_target_h)`,
which raises `ZeroDivisionError` when a maximum is `0` in that branch. -/
def get_global_scaling_factor (items : List (Nat × Nat)) : Option ℚ :=
  if (globalMaxima items).1 ≤ FIGMA_MAX_DIMENSION ∧
      (globalMaxima items).2 ≤ FIGMA_MAX_DIMENSION then
    some 1
  else if (globalMaxima items).1 = 0 ∨ (globalMaxima items).2 = 0 then
    none
  else
    some (min ((FIGMA_MAX_DIMENSION : ℚ) / ((globalMaxima items).1 : ℚ))
              ((FIGMA_MAX_DIMENSION : ℚ) / ((globalMaxima items).2 : ℚ)))

/-- Per-item target dimension computed by `main` (lines 269-274):
`int(px / 300 * 100)`, i.e. inches at 300 DPI rendered at 100 px/inch. -/
def figmaTarget100 (px : Nat) : Nat := px * 100 / 300

/-- The per-item pipeline of `main` (lines 266-282): from the post-orientation
pixel size it derives the target box at 100 px/inch and calls
`calculate_scaled_dimensions`.  `main` never calls
`get_global_scaling_factor`; no global factor enters this computation. -/
def mainItemDims (wh : Nat × Nat) : Option (Nat × Nat) :=
  calculate_scaled_dimensions wh.1 wh.2 (figmaTarget100 wh.1) (figmaTarget100 wh.2)

/-- C1: `main` applies no global scale factor.  For the batch of a
16000×16000 px and a 3000×3000 px image, the batch's global factor (as
`get_global_scaling_factor` would compute it, at 96 DPI) is 4/5, yet `main`
leaves the second item at its own unscaled target 1000×1000 — a factor of 1
re-derived from its own size, not the uniform batch factor. -/
theorem C1_no_global_factor :
    mainItemDims (16000, 16000) = some (5333, 5333) ∧
    mainItemDims (3000, 3000) = some (1000, 1000) ∧
    get_global_scaling_factor [(16000, 16000), (3000, 3000)] = some (4 / 5) ∧
    (1000 : ℚ) ≠ (4 / 5) * 1000 := by
  refine ⟨by norm_num [mainItemDims, calculate_scaled_dimensions, figmaTarget100],
    by norm_num [mainItemDims, calculate_scaled_dimensions, figmaTarget100],
    by norm_num [get_global_scaling_factor, globalMaxima, figmaTarget96,
      FIGMA_MAX_DIMENSION, List.foldl],
    by norm_num⟩

/-- C2: the final per-item dimensions of `main` can exceed
`FIGMA_MAX_DIMENSION`: a single 16000×16000 px image is given the target
5333×5333, and both sides exceed 4096, because `main` never applies the
global scale factor. -/
theorem C2_exceeds_canvas :
    mainItemDims (16000, 16000) = some (5333, 5333) ∧
    FIGMA_MAX_DIMENSION < 5333 := by
  refine ⟨by norm_num [mainItemDims, calculate_scaled_dimensions, figmaTarget100],
    by norm_num [FIGMA_MAX_DIMENSION]⟩

/-- C3, counterexample: for the non-empty batch of one 3×16000 px image the
tracked maximum width is `int(3/300*96) = 0` while the maximum height is
5120 > 4096, so `get_global_scaling_factor` raises `ZeroDivisionError`
instead of returning `min(4096/max_w, 4096/max_h)`. -/
theorem C3_counterexample :
    get_global_scaling_factor [(3, 16000)] = none ∧
    globalMaxima [(3, 16000)] = (0, 5120) := by
  refine ⟨by norm_num [get_global_scaling_factor, globalMaxima, figmaTarget96,
      FIGMA_MAX_DIMENSION, List.foldl],
    by norm_num [globalMaxima, figmaTarget96, List.foldl]⟩

/-- C4, counterexample: a 10×6 px image runs through `main`'s pipeline to the
target box 3×2 and comes out 3×1, whose aspect ratio 3 differs from the
original 10/6 by 4/3, which is not below the claimed rounding tolerance
`1/min(3,1) = 1`. -/
theorem C4_counterexample :
    mainItemDims (10, 6) = some (3, 1) ∧
    ¬ |(3 : ℚ) / (1 : ℚ) - (10 : ℚ) / (6 : ℚ)| < 1 / min (3 : ℚ) 1 := by
  refine ⟨by norm_num [mainItemDims, calculate_scaled_dimensions, figmaTarget100],
    by rw [abs_of_nonneg (by norm_num)]; norm_num⟩

/-- C5, counterexample: a 301×3 px image runs through `main`'s pipeline to
the target box 100×1 and `calculate_scaled_dimensions` returns an output
height of `int(100 / (301/3)) = 0`, which is not at least 1 pixel. -/
theorem C5_counterexample :
    mainItemDims (301, 3) = some (100, 0) ∧ ¬ (1 : Nat) ≤ 0 := by
  refine ⟨by norm_num [mainItemDims, calculate_scaled_dimensions, figmaTarget100],
    by decide⟩

/-- C6, counterexample: `get_global_scaling_factor` does not fail fast.  The
empty batch returns factor `1.0` rather than an error, and an item of width 0
(here 0×16000 px) is neither reported as an error nor excluded: its height
still enters the maxima and drags the factor of an otherwise in-bounds batch
from `1.0` down to `4/5`. -/
theorem C6_counterexample :
    get_global_scaling_factor [] = some 1 ∧
    get_global_scaling_factor [(0, 16000), (4000, 4000)] = some (4 / 5) ∧
    get_global_scaling_factor [(4000, 4000)] = some 1 := by
  refine ⟨by norm_num [get_global_scaling_factor, globalMaxima, figmaTarget96,
      FIGMA_MAX_DIMENSION, List.foldl],
    by norm_num [get_global_scaling_factor, globalMaxima, figmaTarget96,
      FIGMA_MAX_DIMENSION, List.foldl],
    by norm_num [get_global_scaling_factor, globalMaxima, figmaTarget96,
      FIGMA_MAX_DIMENSION, List.foldl]⟩

/-- C7, counterexample: for inputs `w=19, h=10, target_w=100, target_h=1`
the height-limited branch computes the real-valued width `1 * 19/10 = 1.9`,
whose nearest integer is 2, but the code truncates with `int` and returns 1. -/
theorem C7_counterexample :
    calculate_scaled_dimensions 19 10 100 1 = some (1, 1) ∧
    round ((1 : ℚ) * ((19 : ℚ) / (10 : ℚ))) = 2 ∧ (1 : ℤ) ≠ 2 := by
  refine ⟨by norm_num [calculate_scaled_dimensions],
    by norm_num [round_eq], by decide⟩

/-- Floor division of naturals is below the exact rational quotient. -/
lemma natDiv_cast_le (a b : Nat) : ((a / b : Nat) : ℚ) ≤ (a : ℚ) / (b : ℚ) := by
  rcases Nat.eq_zero_or_pos b with rfl | hb
  · simp
  · rw [le_div_iff₀ (by exact_mod_cast hb : (0 : ℚ) < (b : ℚ))]
    exact_mod_cast Nat.div_mul_le_self a b

/-- The exact rational quotient is below the floor division plus one. -/
lemma cast_lt_natDiv_succ (a b : Nat) (hb : 0 < b) :
    (a : ℚ) / (b : ℚ) < ((a / b : Nat) : ℚ) + 1 := by
  rw [div_lt_iff₀ (by exact_mod_cast hb : (0 : ℚ) < (b : ℚ))]
  have h3 : a < (a / b + 1) * b := (Nat.div_lt_iff_lt_mul hb).mp (Nat.lt_succ_self _)
  exact_mod_cast h3

/-- C8: both divisions in `calculate_scaled_dimensions` are unguarded — any
input with `h = 0` or `target_h = 0` makes it fail with `ZeroDivisionError`
(`none`) — and `target_h = 0` is reachable from `main`'s per-item pipeline:
any source image of positive pixel height below 3 gets
`target_h = int(h / 300 * 100) = 0`, so its pipeline run fails. -/
theorem C8_unguarded_division (w h tw th wp hp : Nat)
    (hz : h = 0 ∨ th = 0) (hp1 : 0 < hp) (hp2 : hp < 3) :
    calculate_scaled_dimensions w h tw th = none ∧
    figmaTarget100 hp = 0 ∧
    mainItemDims (wp, hp) = none := by
  have ht : figmaTarget100 hp = 0 := by
    have hlt : hp * 100 < 300 := by omega
    exact Nat.div_eq_of_lt hlt
  refine ⟨?_, ht, ?_⟩
  · rcases hz with h0 | t0
    · simp [calculate_scaled_dimensions, h0]
    · by_cases hh : h = 0 <;> simp [calculate_scaled_dimensions, hh, t0]
  · simp [mainItemDims, calculate_scaled_dimensions, ht]

/-- Witness for C8 at `w=5, h=0, target_w=3, target_h=2` and a 7×2 px
pipeline image. -/
theorem C8_unguarded_division_witness :
    calculate_scaled_dimensions 5 0 3 2 = none ∧
    figmaTarget100 2 = 0 ∧
    mainItemDims (7, 2) = none :=
  C8_unguarded_division 5 0 3 2 7 2 (Or.inl rfl) (by norm_num) (by norm_num)

/-- C9: on positive inputs, a returned pair fits inside the requested target
box: `new_w ≤ target_w` and `new_h ≤ target_h`. -/
theorem C9_fits_target_box (w h tw th nw nh : Nat)
    (hw : 0 < w) (hh : 0 < h) (htw : 0 < tw) (hth : 0 < th)
    (hres : calculate_scaled_dimensions w h tw th = some (nw, nh)) :
    nw ≤ tw ∧ nh ≤ th := by
  have hhQ : (0 : ℚ) < (h : ℚ) := by exact_mod_cast hh
  have hthQ : (0 : ℚ) < (th : ℚ) := by exact_mod_cast hth
  unfold calculate_scaled_dimensions at hres
  split_ifs at hres with h0 t0 cond w0
  · obtain ⟨rfl, rfl⟩ : th * w / h = nw ∧ th = nh := by simpa using hres
    refine ⟨?_, le_refl th⟩
    have hcross : w * th < tw * h := by
      rw [gt_iff_lt, div_lt_div_iff₀ hhQ hthQ] at cond
      exact_mod_cast cond
    have hle : th * w ≤ tw * h := by
      calc th * w = w * th := Nat.mul_comm th w
        _ ≤ tw * h := le_of_lt hcross
    calc th * w / h ≤ tw * h / h := Nat.div_le_div_right hle
      _ = tw := Nat.mul_div_cancel _ hh
  · obtain ⟨rfl, rfl⟩ : tw = nw ∧ tw * h / w = nh := by simpa using hres
    refine ⟨le_refl tw, ?_⟩
    have hcross : tw * h ≤ w * th := by
      rw [gt_iff_lt, not_lt, div_le_div_iff₀ hthQ hhQ] at cond
      exact_mod_cast cond
    calc tw * h / w ≤ w * th / w := Nat.div_le_div_right hcross
      _ = th := Nat.mul_div_cancel_left _ (Nat.pos_of_ne_zero w0)

/-- Witness for C9 at a 900×1200 px image with target box 300×400. -/
theorem C9_fits_target_box_witness : (300 : Nat) ≤ 300 ∧ (400 : Nat) ≤ 400 :=
  C9_fits_target_box 900 1200 300 400 300 400 (by norm_num) (by norm_num)
    (by norm_num) (by norm_num) (by norm_num [calculate_scaled_dimensions])

/-- C5 amended: the limiting dimension always equals its (positive) target,
and the floor-computed dimension is at least 1 exactly when the truncated
quotient does not vanish: both outputs are ≥ 1 whenever `h ≤ target_h * w`
and `w ≤ target_w * h`. -/
theorem C5_amended (w h tw th nw nh : Nat)
    (hres : calculate_scaled_dimensions w h tw th = some (nw, nh))
    (htw : 0 < tw) (hth : 0 < th) (h1 : h ≤ th * w) (h2 : w ≤ tw * h) :
    1 ≤ nw ∧ 1 ≤ nh := by
  unfold calculate_scaled_dimensions at hres
  split_ifs at hres with h0 t0 cond w0
  · obtain ⟨rfl, rfl⟩ : th * w / h = nw ∧ th = nh := by simpa using hres
    exact ⟨(Nat.one_le_div_iff (Nat.pos_of_ne_zero h0)).mpr h1, hth⟩
  · obtain ⟨rfl, rfl⟩ : tw = nw ∧ tw * h / w = nh := by simpa using hres
    exact ⟨htw, (Nat.one_le_div_iff (Nat.pos_of_ne_zero w0)).mpr h2⟩

/-- Witness for the amended C5 at a 900×1200 px image with target box
300×400. -/
theorem C5_amended_witness : (1 : Nat) ≤ 300 ∧ (1 : Nat) ≤ 400 :=
  C5_amended 900 1200 300 400 300 400
    (by norm_num [calculate_scaled_dimensions]) (by norm_num) (by norm_num)
    (by norm_num) (by norm_num)

/-- Floor of an exact rational quotient of naturals is the natural floor
division. -/
lemma floor_natCast_div (a b : Nat) (hb : 0 < b) :
    ⌊(a : ℚ) / (b : ℚ)⌋ = ((a / b : Nat) : ℤ) := by
  rw [Int.floor_eq_iff]
  constructor
  · push_cast
    exact natDiv_cast_le a b
  · push_cast
    exact cast_lt_natDiv_succ a b hb

/-- C7 amended: the resulting dimensions are rounded DOWN (truncated) to an
integer, not to the nearest integer: the non-limiting output dimension is the
floor of the real-valued scaled dimension (`new_h * aspect_ratio`, resp.
`new_w / aspect_ratio`), while the limiting one equals its target. -/
theorem C7_amended (w h tw th nw nh : Nat)
    (hres : calculate_scaled_dimensions w h tw th = some (nw, nh)) :
    ((nw : ℤ) = ⌊(th : ℚ) * ((w : ℚ) / (h : ℚ))⌋ ∧ nh = th) ∨
    (nw = tw ∧ (nh : ℤ) = ⌊(tw : ℚ) / ((w : ℚ) / (h : ℚ))⌋) := by
  unfold calculate_scaled_dimensions at hres
  split_ifs at hres with h0 t0 cond w0
  · obtain ⟨rfl, rfl⟩ : th * w / h = nw ∧ th = nh := by simpa using hres
    refine Or.inl ⟨?_, rfl⟩
    rw [mul_div_assoc', ← Nat.cast_mul, floor_natCast_div _ _ (Nat.pos_of_ne_zero h0)]
  · obtain ⟨rfl, rfl⟩ : tw = nw ∧ tw * h / w = nh := by simpa using hres
    refine Or.inr ⟨rfl, ?_⟩
    rw [div_div_eq_mul_div, ← Nat.cast_mul, floor_natCast_div _ _ (Nat.pos_of_ne_zero w0)]

/-- Witness for the amended C7 at `w=19, h=10, target_w=100, target_h=1`. -/
theorem C7_amended_witness :
    (((1 : Nat) : ℤ) = ⌊((1 : Nat) : ℚ) * (((19 : Nat) : ℚ) / ((10 : Nat) : ℚ))⌋ ∧
      (1 : Nat) = 1) ∨
    ((1 : Nat) = 100 ∧
      ((1 : Nat) : ℤ) = ⌊((100 : Nat) : ℚ) / (((19 : Nat) : ℚ) / ((10 : Nat) : ℚ))⌋) :=
  C7_amended 19 10 100 1 1 1 (by norm_num [calculate_scaled_dimensions])

/-- C3 amended: for every batch the factor is `1.0` when both tracked maxima
are within the canvas limit; otherwise it is
`min(canvas / max_w, canvas / max_h)` provided both maxima are positive,
while a zero maximum in that branch makes the computation fail with
`ZeroDivisionError` instead of returning a factor. -/
theorem C3_amended (items : List (Nat × Nat)) :
    ((globalMaxima items).1 ≤ FIGMA_MAX_DIMENSION ∧
        (globalMaxima items).2 ≤ FIGMA_MAX_DIMENSION →
      get_global_scaling_factor items = some 1) ∧
    (¬ ((globalMaxima items).1 ≤ FIGMA_MAX_DIMENSION ∧
          (globalMaxima items).2 ≤ FIGMA_MAX_DIMENSION) →
      0 < (globalMaxima items).1 → 0 < (globalMaxima items).2 →
      get_global_scaling_factor items =
        some (min ((FIGMA_MAX_DIMENSION : ℚ) / ((globalMaxima items).1 : ℚ))
                  ((FIGMA_MAX_DIMENSION : ℚ) / ((globalMaxima items).2 : ℚ)))) ∧
    (¬ ((globalMaxima items).1 ≤ FIGMA_MAX_DIMENSION ∧
          (globalMaxima items).2 ≤ FIGMA_MAX_DIMENSION) →
      (globalMaxima items).1 = 0 ∨ (globalMaxima items).2 = 0 →
      get_global_scaling_factor items = none) := by
  refine ⟨fun hc => ?_, fun hc h1 h2 => ?_, fun hc hz => ?_⟩
  · rw [get_global_scaling_factor, if_pos hc]
  · rw [get_global_scaling_factor, if_neg hc, if_neg (by omega)]
  · rw [get_global_scaling_factor, if_neg hc, if_pos hz]

/-- Witness for the amended C3 at the single-item batch of a 16000×16000 px
image, whose tracked maxima are 5120×5120. -/
theorem C3_amended_witness :
    get_global_scaling_factor [(16000, 16000)] = some (4 / 5) := by
  have h := (C3_amended [(16000, 16000)]).2.1
    (by norm_num [globalMaxima, figmaTarget96, FIGMA_MAX_DIMENSION, List.foldl])
    (by norm_num [globalMaxima, figmaTarget96, List.foldl])
    (by norm_num [globalMaxima, figmaTarget96, List.foldl])
  rw [h]
  norm_num [globalMaxima, figmaTarget96, FIGMA_MAX_DIMENSION, List.foldl]

/-- C10: whenever `get_global_scaling_factor` returns normally, the factor is
in `(0, 1]`: it is exactly 1 when both tracked maxima are at most the canvas
limit (in particular for a batch contributing no maxima), and strictly
between 0 and 1 otherwise. -/
theorem C10_factor_range (items : List (Nat × Nat)) (q : ℚ)
    (h : get_global_scaling_factor items = some q) :
    0 < q ∧ q ≤ 1 ∧
    ((globalMaxima items).1 ≤ FIGMA_MAX_DIMENSION ∧
        (globalMaxima items).2 ≤ FIGMA_MAX_DIMENSION → q = 1) ∧
    (¬ ((globalMaxima items).1 ≤ FIGMA_MAX_DIMENSION ∧
          (globalMaxima items).2 ≤ FIGMA_MAX_DIMENSION) → 0 < q ∧ q < 1) := by
  unfold get_global_scaling_factor at h
  split_ifs at h with hc hz
  · obtain rfl : (1 : ℚ) = q := by simpa using h
    exact ⟨one_pos, le_refl 1, fun _ => rfl, fun hn => absurd hc hn⟩
  · obtain rfl :
        min ((FIGMA_MAX_DIMENSION : ℚ) / ((globalMaxima items).1 : ℚ))
            ((FIGMA_MAX_DIMENSION : ℚ) / ((globalMaxima items).2 : ℚ)) = q := by
      simpa using h
    push_neg at hz
    have hm1 : (0 : ℚ) < ((globalMaxima items).1 : ℚ) := by
      exact_mod_cast Nat.pos_of_ne_zero hz.1
    have hm2 : (0 : ℚ) < ((globalMaxima items).2 : ℚ) := by
      exact_mod_cast Nat.pos_of_ne_zero hz.2
    have hq0 : 0 < min ((FIGMA_MAX_DIMENSION : ℚ) / ((globalMaxima items).1 : ℚ))
        ((FIGMA_MAX_DIMENSION : ℚ) / ((globalMaxima items).2 : ℚ)) :=
      lt_min (div_pos (by norm_num [FIGMA_MAX_DIMENSION]) hm1)
        (div_pos (by norm_num [FIGMA_MAX_DIMENSION]) hm2)
    have hq1 : min ((FIGMA_MAX_DIMENSION : ℚ) / ((globalMaxima items).1 : ℚ))
        ((FIGMA_MAX_DIMENSION : ℚ) / ((globalMaxima items).2 : ℚ)) < 1 := by
      rcases not_and_or.mp hc with hgt | hgt
      · refine lt_of_le_of_lt (min_le_left _ _) ?_
        rw [div_lt_one hm1]
        exact_mod_cast Nat.lt_of_not_le hgt
      · refine lt_of_le_of_lt (min_le_right _ _) ?_
        rw [div_lt_one hm2]
        exact_mod_cast Nat.lt_of_not_le hgt
    exact ⟨hq0, le_of_lt hq1, fun hcc => absurd hcc hc, fun _ => ⟨hq0, hq1⟩⟩

/-- Witness for C10 at the single-item batch of a 32000×16000 px image,
whose tracked maxima are 10240×5120 and whose factor is 2/5. -/
theorem C10_factor_range_witness :
    0 < (2 / 5 : ℚ) ∧ (2 / 5 : ℚ) ≤ 1 ∧
    ((globalMaxima [(32000, 16000)]).1 ≤ FIGMA_MAX_DIMENSION ∧
        (globalMaxima [(32000, 16000)]).2 ≤ FIGMA_MAX_DIMENSION → (2 / 5 : ℚ) = 1) ∧
    (¬ ((globalMaxima [(32000, 16000)]).1 ≤ FIGMA_MAX_DIMENSION ∧
          (globalMaxima [(32000, 16000)]).2 ≤ FIGMA_MAX_DIMENSION) →
      0 < (2 / 5 : ℚ) ∧ (2 / 5 : ℚ) < 1) :=
  C10_factor_range [(32000, 16000)] (2 / 5)
    (by norm_num [get_global_scaling_factor, globalMaxima, figmaTarget96,
      FIGMA_MAX_DIMENSION, List.foldl])

/-- The width component of the maxima fold only depends on widths. -/
lemma globalMaxima_fold_fst (items : List (Nat × Nat)) (a b : Nat) :
    (items.foldl
      (fun acc wh => (max acc.1 (figmaTarget96 wh.1), max acc.2 (figmaTarget96 wh.2)))
      (a, b)).1 =
    items.foldl (fun acc wh => max acc (figmaTarget96 wh.1)) a := by
  induction items generalizing a b with
  | nil => rfl
  | cons x xs ih =>
    simp only [List.foldl_cons]
    exact ih _ _

/-- The height component of the maxima fold only depends on heights. -/
lemma globalMaxima_fold_snd (items : List (Nat × Nat)) (a b : Nat) :
    (items.foldl
      (fun acc wh => (max acc.1 (figmaTarget96 wh.1), max acc.2 (figmaTarget96 wh.2)))
      (a, b)).2 =
    items.foldl (fun acc wh => max acc (figmaTarget96 wh.2)) b := by
  induction items generalizing a b with
  | nil => rfl
  | cons x xs ih =>
    simp only [List.foldl_cons]
    exact ih _ _

/-- C6 amended: the normalizer does not fail fast.  An empty batch is not
rejected — the factor is `1.0`.  An item with width 0 (resp. height 0) is not
reported as an error: its zero dimension contributes a target of 0 and never
raises the corresponding maximum (though the item's other, nonzero dimension
is still included in the other maximum, see `C6_counterexample`). -/
theorem C6_amended (h : Nat) (items : List (Nat × Nat)) :
    get_global_scaling_factor [] = some 1 ∧
    (globalMaxima ((0, h) :: items)).1 = (globalMaxima items).1 ∧
    (globalMaxima ((h, 0) :: items)).2 = (globalMaxima items).2 := by
  refine ⟨by norm_num [get_global_scaling_factor, globalMaxima,
    FIGMA_MAX_DIMENSION, List.foldl], ?_, ?_⟩
  · rw [globalMaxima, globalMaxima, List.foldl_cons,
      globalMaxima_fold_fst, globalMaxima_fold_fst]
    norm_num [figmaTarget96]
  · rw [globalMaxima, globalMaxima, List.foldl_cons,
      globalMaxima_fold_snd, globalMaxima_fold_snd]
    norm_num [figmaTarget96]

/-- C4 amended: with the rounding done by truncation on a target box that is
itself rounded, the aspect-ratio deviation is bounded by the rounding
tolerance scaled by the original aspect ratio (or its reciprocal): for
positive outputs,
`|new_w/new_h - w/h| < max(w/h, h/w) / min(new_w, new_h)`. -/
theorem C4_amended (w h tw th nw nh : Nat)
    (hres : calculate_scaled_dimensions w h tw th = some (nw, nh))
    (hnw : 0 < nw) (hnh : 0 < nh) :
    |(nw : ℚ) / (nh : ℚ) - (w : ℚ) / (h : ℚ)| <
      max ((w : ℚ) / (h : ℚ)) ((h : ℚ) / (w : ℚ)) / min (nw : ℚ) (nh : ℚ) := by
  unfold calculate_scaled_dimensions at hres
  split_ifs at hres with h0 t0 cond w0
  · -- height-limited branch: nw = int(th * (w/h)), nh = th
    obtain ⟨rfl, rfl⟩ : th * w / h = nw ∧ th = nh := by simpa using hres
    have hh' : 0 < h := Nat.pos_of_ne_zero h0
    have hw' : 0 < w := by
      rcases Nat.eq_zero_or_pos w with rfl | hw'
      · simp at hnw
      · exact hw'
    have hhQ : (0 : ℚ) < (h : ℚ) := by exact_mod_cast hh'
    have hwQ : (0 : ℚ) < (w : ℚ) := by exact_mod_cast hw'
    have hthQ : (0 : ℚ) < (th : ℚ) := by exact_mod_cast hnh
    have hnwQ : (0 : ℚ) < ((th * w / h : Nat) : ℚ) := by exact_mod_cast hnw
    have f1 : ((th * w / h : Nat) : ℚ) ≤ ((th * w : Nat) : ℚ) / (h : ℚ) :=
      natDiv_cast_le (th * w) h
    have f2 : ((th * w : Nat) : ℚ) / (h : ℚ) < ((th * w / h : Nat) : ℚ) + 1 :=
      cast_lt_natDiv_succ (th * w) h hh'
    have key1 : ((th * w / h : Nat) : ℚ) / (th : ℚ) ≤ (w : ℚ) / (h : ℚ) := by
      rw [div_le_div_iff₀ hthQ hhQ]
      have hf : ((th * w / h : Nat) : ℚ) * (h : ℚ) ≤ ((th * w : Nat) : ℚ) :=
        (le_div_iff₀ hhQ).mp f1
      push_cast at hf
      calc ((th * w / h : Nat) : ℚ) * (h : ℚ) ≤ (th : ℚ) * (w : ℚ) := hf
        _ = (w : ℚ) * (th : ℚ) := by ring
    have key2 : (w : ℚ) / (h : ℚ) < (((th * w / h : Nat) : ℚ) + 1) / (th : ℚ) := by
      rw [div_lt_div_iff₀ hhQ hthQ]
      have hf : ((th * w : Nat) : ℚ) < (((th * w / h : Nat) : ℚ) + 1) * (h : ℚ) :=
        (div_lt_iff₀ hhQ).mp f2
      push_cast at hf
      calc (w : ℚ) * (th : ℚ) = (th : ℚ) * (w : ℚ) := by ring
        _ < (((th * w / h : Nat) : ℚ) + 1) * (h : ℚ) := hf
    have hmax1 : (1 : ℚ) ≤ max ((w : ℚ) / (h : ℚ)) ((h : ℚ) / (w : ℚ)) := by
      rcases le_total w h with hle | hle
      · exact le_max_of_le_right ((one_le_div hwQ).mpr (by exact_mod_cast hle))
      · exact le_max_of_le_left ((one_le_div hhQ).mpr (by exact_mod_cast hle))
    have hminpos : (0 : ℚ) < min ((th * w / h : Nat) : ℚ) (th : ℚ) :=
      lt_min hnwQ hthQ
    have hfin : 1 / (th : ℚ) ≤
        max ((w : ℚ) / (h : ℚ)) ((h : ℚ) / (w : ℚ)) /
          min ((th * w / h : Nat) : ℚ) (th : ℚ) :=
      div_le_div₀ (le_trans zero_le_one hmax1) hmax1 hminpos (min_le_right _ _)
    rw [abs_sub_comm, abs_of_nonneg (by linarith)]
    have hsplit : (((th * w / h : Nat) : ℚ) + 1) / (th : ℚ)
        = ((th * w / h : Nat) : ℚ) / (th : ℚ) + 1 / (th : ℚ) := by ring
    linarith [key2, hfin]
  · -- width-limited branch: nw = tw, nh = int(tw / (w/h))
    obtain ⟨rfl, rfl⟩ : tw = nw ∧ tw * h / w = nh := by simpa using hres
    have hh' : 0 < h := Nat.pos_of_ne_zero h0
    have hw' : 0 < w := Nat.pos_of_ne_zero w0
    have hhQ : (0 : ℚ) < (h : ℚ) := by exact_mod_cast hh'
    have hwQ : (0 : ℚ) < (w : ℚ) := by exact_mod_cast hw'
    have htwQ : (0 : ℚ) < (tw : ℚ) := by exact_mod_cast hnw
    have hnhQ : (0 : ℚ) < ((tw * h / w : Nat) : ℚ) := by exact_mod_cast hnh
    have f1 : ((tw * h / w : Nat) : ℚ) ≤ ((tw * h : Nat) : ℚ) / (w : ℚ) :=
      natDiv_cast_le (tw * h) w
    have f2 : ((tw * h : Nat) : ℚ) / (w : ℚ) < ((tw * h / w : Nat) : ℚ) + 1 :=
      cast_lt_natDiv_succ (tw * h) w hw'
    have key1 : (w : ℚ) / (h : ℚ) ≤ (tw : ℚ) / ((tw * h / w : Nat) : ℚ) := by
      rw [div_le_div_iff₀ hhQ hnhQ]
      have hf : ((tw * h / w : Nat) : ℚ) * (w : ℚ) ≤ ((tw * h : Nat) : ℚ) :=
        (le_div_iff₀ hwQ).mp f1
      push_cast at hf
      calc (w : ℚ) * ((tw * h / w : Nat) : ℚ)
          = ((tw * h / w : Nat) : ℚ) * (w : ℚ) := by ring
        _ ≤ (tw : ℚ) * (h : ℚ) := hf
    have keyN : (tw : ℚ) * (h : ℚ) < (((tw * h / w : Nat) : ℚ) + 1) * (w : ℚ) := by
      have hf : ((tw * h : Nat) : ℚ) < (((tw * h / w : Nat) : ℚ) + 1) * (w : ℚ) :=
        (div_lt_iff₀ hwQ).mp f2
      push_cast at hf
      linarith [hf]
    have key2 : (tw : ℚ) / ((tw * h / w : Nat) : ℚ) - (w : ℚ) / (h : ℚ) <
        ((w : ℚ) / (h : ℚ)) / ((tw * h / w : Nat) : ℚ) := by
      have pa : (tw : ℚ) / ((tw * h / w : Nat) : ℚ) <
          ((w : ℚ) * (((tw * h / w : Nat) : ℚ) + 1)) /
            ((h : ℚ) * ((tw * h / w : Nat) : ℚ)) := by
        rw [div_lt_div_iff₀ hnhQ (by positivity)]
        calc (tw : ℚ) * ((h : ℚ) * ((tw * h / w : Nat) : ℚ))
            = ((tw : ℚ) * (h : ℚ)) * ((tw * h / w : Nat) : ℚ) := by ring
          _ < ((((tw * h / w : Nat) : ℚ) + 1) * (w : ℚ)) * ((tw * h / w : Nat) : ℚ) :=
              mul_lt_mul_of_pos_right keyN hnhQ
          _ = (w : ℚ) * (((tw * h / w : Nat) : ℚ) + 1) * ((tw * h / w : Nat) : ℚ) := by
              ring
      have hne1 : (h : ℚ) ≠ 0 := ne_of_gt hhQ
      have hne2 : ((tw * h / w : Nat) : ℚ) ≠ 0 := ne_of_gt hnhQ
      have pb : ((w : ℚ) * (((tw * h / w : Nat) : ℚ) + 1)) /
            ((h : ℚ) * ((tw * h / w : Nat) : ℚ))
          = (w : ℚ) / (h : ℚ) + ((w : ℚ) / (h : ℚ)) / ((tw * h / w : Nat) : ℚ) := by
        field_simp
        ring
      linarith [pa, pb]
    have hwh0 : (0 : ℚ) ≤ (w : ℚ) / (h : ℚ) := le_of_lt (div_pos hwQ hhQ)
    have hmax0 : (0 : ℚ) ≤ max ((w : ℚ) / (h : ℚ)) ((h : ℚ) / (w : ℚ)) :=
      le_trans hwh0 (le_max_left _ _)
    have hminpos : (0 : ℚ) < min (tw : ℚ) ((tw * h / w : Nat) : ℚ) :=
      lt_min htwQ hnhQ
    have hfin : ((w : ℚ) / (h : ℚ)) / ((tw * h / w : Nat) : ℚ) ≤
        max ((w : ℚ) / (h : ℚ)) ((h : ℚ) / (w : ℚ)) /
          min (tw : ℚ) ((tw * h / w : Nat) : ℚ) :=
      div_le_div₀ hmax0 (le_max_left _ _) hminpos (min_le_right _ _)
    rw [abs_of_nonneg (by linarith [key1])]
    linarith [key2, hfin]

/-- Witness for the amended C4 at a 900×1200 px image with target box
300×400: the output 300×400 has zero deviation, below the bound. -/
theorem C4_amended_witness :
    |(300 : ℚ) / (400 : ℚ) - (900 : ℚ) / (1200 : ℚ)| <
      max ((900 : ℚ) / (1200 : ℚ)) ((1200 : ℚ) / (900 : ℚ)) /
        min (300 : ℚ) (400 : ℚ) := by
  exact_mod_cast C4_amended 900 1200 300 400 300 400
    (by norm_num [calculate_scaled_dimensions]) (by norm_num) (by norm_num)
